import Mathlib

/-!
Shallow embedding of the TWI weewx driver (`bin/user/twi.py`): the serial
transport (`TWIStation.get_data`), the retrying command executor
(`TWIStation.get_data_with_retry`), the response parser
(`TWIStation.parse_current` / `TWIStation.try_float`), and the station
configuration set up by `TWIStation.__init__` / `TWIDriver.__init__`.

Numeric fields are modelled with exact rationals (`ℚ`); the decimal values
that occur in the protocol are represented exactly.
-/

/-- Decidable equality for `Except`, so that concrete runs of the fallible
operations can be checked by evaluation. -/
instance {ε α : Type} [DecidableEq ε] [DecidableEq α] : DecidableEq (Except ε α) := fun a b =>
  match a, b with
  | .error x, .error y =>
    if h : x = y then .isTrue (by rw [h]) else .isFalse (by simp [h])
  | .ok x, .ok y =>
    if h : x = y then .isTrue (by rw [h]) else .isFalse (by simp [h])
  | .error _, .ok _ => .isFalse (fun h => Except.noConfusion h)
  | .ok _, .error _ => .isFalse (fun h => Except.noConfusion h)

namespace TWI

/-! ### Models of the Python primitives the driver calls -/

/-- Model of Python `str.split()` with no separator argument, at the level of
character lists: split on runs of whitespace, discarding empty pieces.
`acc` holds the characters of the current (reversed) token. -/
def splitWsAux : List Char → List Char → List (List Char)
  | [], acc => if acc.isEmpty then [] else [acc.reverse]
  | c :: rest, acc =>
    if c.isWhitespace then
      if acc.isEmpty then splitWsAux rest [] else acc.reverse :: splitWsAux rest []
    else
      splitWsAux rest (c :: acc)

/-- Model of Python `s.split()`: whitespace tokenisation of a string. -/
def pySplit (s : String) : List String :=
  (splitWsAux s.toList []).map (fun cs => ⟨cs⟩)

/-- Model of Python slicing `s[:n]` on text: the first `n` characters
(the whole string when it is shorter). -/
def pyTake (n : Nat) (s : String) : String := ⟨s.toList.take n⟩

/-- Model of Python slicing `s[:-n]` on text: the string without its last
`n` characters (empty when it is not longer than `n`). -/
def pyDropRight (n : Nat) (s : String) : String :=
  ⟨s.toList.take (s.toList.length - n)⟩

/-- Strip leading and trailing whitespace from a character list; models the
whitespace tolerance of Python `float(str)` and `bytes.strip()`. -/
def trimChars (cs : List Char) : List Char :=
  ((cs.dropWhile Char.isWhitespace).reverse.dropWhile Char.isWhitespace).reverse

/-- Numeric value of a digit-character list read in base 10. -/
def digitsVal (cs : List Char) : Nat :=
  cs.foldl (fun a c => 10 * a + (c.toNat - 48)) 0

/-- Parse the mantissa part of a Python float literal: `digits`, `digits.digits`,
`digits.` or `.digits` (at least one digit overall, at most one dot).
The result is the pair of the unscaled integer value and the number of
fractional digits, so the mantissa denotes `value / 10 ^ scale`. -/
def pyMantissa (cs : List Char) : Option (Nat × Nat) :=
  let ip := cs.takeWhile (fun c => c ≠ '.')
  let rest := cs.dropWhile (fun c => c ≠ '.')
  match rest with
  | [] =>
    if ip.isEmpty then none
    else if ip.all Char.isDigit then some (digitsVal ip, 0) else none
  | _ :: fp =>
    if ip.isEmpty ∧ fp.isEmpty then none
    else if ip.all Char.isDigit ∧ fp.all Char.isDigit then
      some (digitsVal ip * 10 ^ fp.length + digitsVal fp, fp.length)
    else none

/-- Parse the exponent part of a Python float literal (after `e`/`E`):
an optional sign followed by at least one digit. -/
def pyExponent (cs : List Char) : Option ℤ :=
  match cs with
  | '+' :: ds =>
    if ds.isEmpty then none
    else if ds.all Char.isDigit then some (digitsVal ds) else none
  | '-' :: ds =>
    if ds.isEmpty then none
    else if ds.all Char.isDigit then some (-(digitsVal ds : ℤ)) else none
  | ds =>
    if ds.isEmpty then none
    else if ds.all Char.isDigit then some (digitsVal ds) else none

/-- Assemble the rational value `sgn * m * 10 ^ (e - scale)` of a decimal
literal with unscaled mantissa `m`, `scale` fractional digits and exponent
`e`, using integer arithmetic and one `mkRat`. -/
def decValue (sgn : ℤ) (m : Nat) (scale : Nat) (e : ℤ) : ℚ :=
  let t : ℤ := e - scale
  if 0 ≤ t then mkRat (sgn * m * 10 ^ t.toNat) 1
  else mkRat (sgn * m) (10 ^ t.natAbs)

/-- Model of Python `float(str)` on finite decimal literals: surrounding
whitespace is ignored, then an optional sign, a mantissa and an optional
`e`/`E` exponent.  The special values `inf`/`nan` and digit-group
underscores, which never occur in this protocol, are outside the model. -/
def pyFloat (s : String) : Option ℚ :=
  let cs := trimChars s.toList
  let (sgn, body) : ℤ × List Char :=
    match cs with
    | '+' :: rest => (1, rest)
    | '-' :: rest => (-1, rest)
    | _ => (1, cs)
  let mantPart := body.takeWhile (fun c => c ≠ 'e' ∧ c ≠ 'E')
  let expPart := body.dropWhile (fun c => c ≠ 'e' ∧ c ≠ 'E')
  match expPart with
  | [] => (pyMantissa mantPart).map (fun m => decValue sgn m.1 m.2 0)
  | _ :: ecs =>
    match pyMantissa mantPart, pyExponent ecs with
    | some m, some e => some (decValue sgn m.1 m.2 e)
    | _, _ => none

/-! ### The station: configuration and parser -/

/-- `TWIStation.try_float`: `float(s)`, with a `ValueError` (a literal that
does not parse) turned into `None`. -/
def try_float (s : String) : Option ℚ := pyFloat s

/-- `TWIStation.COMPASS_POINTS`: the 16-point compass table, as the
association list underlying the Python dict.  The half-degree entries
(`22.5`, `67.5`, …) are written `mkRat 45 2`, `mkRat 135 2`, … so that the
table is built without rational-literal coercions. -/
def COMPASS_POINTS : List (String × ℚ) :=
  [("N", 0), ("NNE", mkRat 45 2), ("NE", 45), ("ENE", mkRat 135 2),
   ("E", 90), ("ESE", mkRat 225 2), ("SE", 135), ("SSE", mkRat 315 2),
   ("S", 180), ("SSW", mkRat 405 2), ("SW", 225), ("WSW", mkRat 495 2),
   ("W", 270), ("WNW", mkRat 585 2), ("NW", 315), ("NNW", mkRat 675 2)]

/-- `TWIStation.COMPASS_POINTS.get(t)`: dict lookup returning `None` for a
missing key. -/
def compassGet (t : String) : Option ℚ := COMPASS_POINTS.lookup t

/-- The decoded current-conditions reading built by `parse_current`. -/
structure ParsedReading where
  time : String
  date : String
  wind_dir : Option ℚ
  wind_speed : Option ℚ
  temperature_aux : Option ℚ
  temperature_in : Option ℚ
  temperature_out : Option ℚ
  humidity : Option ℚ
  pressure : Option ℚ
  rain_day : Option ℚ
  rain_month : Option ℚ
  rain_total : Option ℚ
  deriving Repr, DecidableEq

/-- The parser's failure: the response line has too few tokens, so one of
the indexings `parts[0]` … `parts[11]` escapes with an `IndexError` and no
reading is produced (the spec's `MalformedResponse`). -/
inductive ParseError where
  | malformedResponse
  deriving Repr, DecidableEq

/-- Body of `TWIStation.parse_current` after `parts = s.split()`.  In the
source the twelve indexings `parts[i]` raise `IndexError` exactly when
fewer than 12 tokens are present, and otherwise every field is filled; the
guard makes that control flow explicit, and `getD` equals the Python
indexing once the guard has passed. -/
def parseTokens (parts : List String) : Except ParseError ParsedReading :=
  if parts.length < 12 then .error .malformedResponse
  else .ok {
    time := parts.getD 0 ""
    date := parts.getD 1 ""
    wind_dir := compassGet (parts.getD 2 "")
    wind_speed := try_float (pyTake 2 (parts.getD 3 ""))
    temperature_aux := try_float (pyTake 3 (parts.getD 4 ""))
    temperature_in := try_float (pyTake 3 (parts.getD 5 ""))
    temperature_out := try_float (pyTake 3 (parts.getD 6 ""))
    humidity := try_float (pyTake 3 (parts.getD 7 ""))
    pressure := try_float (pyDropRight 1 (parts.getD 8 ""))
    rain_day := try_float (pyDropRight 2 (parts.getD 9 ""))
    rain_month := try_float (pyDropRight 2 (parts.getD 10 ""))
    rain_total := try_float (pyDropRight 2 (parts.getD 11 "")) }

/-- `TWIStation.parse_current`: tokenise the line and decode the twelve
positional fields. -/
def parse_current (s : String) : Except ParseError ParsedReading :=
  parseTokens (pySplit s)

/-! ### Transport: `TWIStation.get_data` -/

/-- The exception kinds caught by the retry loop:
`serial.serialutil.SerialException` and `weewx.WeeWxIOError`. -/
inductive ChannelError where
  | serialException
  | weewxIOError
  deriving Repr, DecidableEq

/-- Model of Python `bytes.strip()`: remove leading and trailing
whitespace. -/
def pyStrip (s : String) : String := ⟨trimChars s.toList⟩

/-- `TWIStation.get_data`: write the command, read one line, then return
the stripped buffer.  The exchange with the serial device is abstracted as
its outcome `readResult`: the bytes `readline` returned, or the exception
it raised. -/
def get_data (readResult : Except ChannelError String) : Except ChannelError String :=
  match readResult with
  | .error e => .error e
  | .ok buf => .ok (pyStrip buf)

/-- Model of `serial.Serial.readline` under the configured read timeout:
when the window elapses, it returns the bytes accumulated so far — the
empty byte string when nothing was received — rather than raising. -/
def readlineOnTimeout (received : String) : Except ChannelError String :=
  .ok received

/-! ### Retrying executor: `TWIStation.get_data_with_retry` -/

/-- How an exhausted retry loop terminates.  Line 238 of the source builds
the failure message from `self._max_tries`, but `__init__` stores the
budget as `self.max_tries`; Python therefore raises `AttributeError`
there, and the `raise weewx.RetriesExceeded(msg)` on line 240 is never
reached.  Both terminal exceptions appear here so the divergence can be
stated. -/
inductive RetryError where
  | attributeError
  | retriesExceeded (cmd : String) (maxTries : Nat)
  deriving Repr, DecidableEq

/-- Observable trace of one `get_data_with_retry` call: how many times the
channel was exercised, the backoff sleeps issued (in order, each the
configured `retry_wait`), and the final outcome. -/
structure RetryTrace where
  calls : Nat
  sleeps : List Nat
  result : Except RetryError String
  deriving Repr, DecidableEq

/-- The loop `for ntries in range(0, max_tries)` of
`TWIStation.get_data_with_retry`, starting at attempt index `i` with
`fuel` iterations left.  A successful `get_data` returns at once; a caught
exception logs, sleeps `retry_wait`, and continues; running out of
iterations reaches the `else:` branch, which dies with `AttributeError`
(see `RetryError`).  `outcome n` is the transport's behaviour on the
`n`-th call. -/
def get_data_with_retryAux (outcome : Nat → Except ChannelError String)
    (retryWait : Nat) : Nat → Nat → RetryTrace
  | _, 0 => ⟨0, [], .error .attributeError⟩
  | i, fuel + 1 =>
    match outcome i with
    | .ok buf => ⟨1, [], .ok buf⟩
    | .error _ =>
      let t := get_data_with_retryAux outcome retryWait (i + 1) fuel
      ⟨t.calls + 1, retryWait :: t.sleeps, t.result⟩

/-- `TWIStation.get_data_with_retry`: run the retry loop from the first
attempt with the configured budget. -/
def get_data_with_retry (outcome : Nat → Except ChannelError String)
    (maxTries retryWait : Nat) : RetryTrace :=
  get_data_with_retryAux outcome retryWait 0 maxTries

/-! ### Station construction: `TWIStation.__init__`, `TWIDriver.__init__` -/

/-- The attributes set by `TWIStation.__init__`. -/
structure TWIStationState where
  port : String
  baudrate : Nat
  timeout : Nat
  max_tries : Nat
  retry_wait : Nat
  serial_port : Option Nat
  deriving Repr, DecidableEq

/-- `TWIStation.DEFAULT_PORT`. -/
def DEFAULT_PORT : String := "/dev/ttyUSB0"

/-- `TWIStation.__init__(self, port, max_tries=5, retry_wait=10)`. -/
def mkTWIStation (port : String) (max_tries : Nat := 5) (retry_wait : Nat := 10) :
    TWIStationState :=
  { port := port, baudrate := 19200, timeout := 3, max_tries := max_tries,
    retry_wait := retry_wait, serial_port := none }

/-- The configuration dictionary consumed by `TWIDriver.__init__`, with
each key optional (the source reads them with `stn_dict.get(key, default)`). -/
structure StnDict where
  model : Option String
  poll_interval : Option Nat
  max_tries : Option Nat
  retry_wait : Option Nat
  port : Option String

/-- The station built by `TWIDriver.__init__`:
`TWIStation(port, max_tries, retry_wait)` with `max_tries` and
`retry_wait` read from the configuration with driver-level defaults 10
and 10, and the port defaulting to `TWIStation.DEFAULT_PORT`. -/
def TWIDriver.mkStation (d : StnDict) : TWIStationState :=
  mkTWIStation (d.port.getD DEFAULT_PORT) (d.max_tries.getD 10) (d.retry_wait.getD 10)

/-- `TWIStation.open`: acquire the serial channel (modelled by a handle)
at the configured baud rate and timeout; only `serial_port` changes. -/
def stationOpen (st : TWIStationState) (handle : Nat) : TWIStationState :=
  { st with serial_port := some handle }

/-- `TWIStation.close`: release the channel when one is held; a no-op on a
closed station. -/
def stationClose (st : TWIStationState) : TWIStationState :=
  match st.serial_port with
  | some _ => { st with serial_port := none }
  | none => st

/-! ### Auxiliary values used in the theorems -/

/-- The keys of the compass table, in table order. -/
def compassNames : List String := COMPASS_POINTS.map Prod.fst

/-- The two-character decimal rendering of `n < 100`, as produced by the
station's `%02d`-style wind-speed field. -/
def twoDigitStr (n : Nat) : String :=
  ⟨[Char.ofNat (48 + n / 10), Char.ofNat (48 + n % 10)]⟩

/-! ### Helper lemmas -/

/-- A retry loop whose transport fails on every attempt runs out its whole
fuel, sleeping once after every failed attempt, and then dies with
`AttributeError`. -/
lemma retryAux_all_fail (outcome : Nat → Except ChannelError String) (w : Nat)
    (hfail : ∀ i, ∃ e, outcome i = .error e) :
    ∀ fuel start, get_data_with_retryAux outcome w start fuel =
      ⟨fuel, List.replicate fuel w, .error .attributeError⟩ := by
  intro fuel
  induction fuel with
  | zero => intro start; rfl
  | succ f ih =>
    intro start
    obtain ⟨e, he⟩ := hfail start
    simp [get_data_with_retryAux, he, ih (start + 1), List.replicate_succ]

/-- A retry loop whose transport fails on the first `j` attempts and then
succeeds stops right there: `j + 1` calls, `j` sleeps, the successful
buffer returned. -/
lemma retryAux_first_success (outcome : Nat → Except ChannelError String)
    (w : Nat) (buf : String) :
    ∀ j start fuel, j < fuel →
      (∀ i, i < j → ∃ e, outcome (start + i) = .error e) →
      outcome (start + j) = .ok buf →
      get_data_with_retryAux outcome w start fuel =
        ⟨j + 1, List.replicate j w, .ok buf⟩ := by
  intro j
  induction j with
  | zero =>
    intro start fuel hlt hfail hok
    match fuel, hlt with
    | f + 1, _ =>
      have hok' : outcome start = .ok buf := by simpa using hok
      simp [get_data_with_retryAux, hok']
  | succ j ih =>
    intro start fuel hlt hfail hok
    match fuel, hlt with
    | f + 1, hlt =>
      obtain ⟨e, he⟩ := hfail 0 (Nat.succ_pos j)
      rw [Nat.add_zero] at he
      have hrec := ih (start + 1) f (by omega)
        (fun i hi => by
          have h' := hfail (i + 1) (by omega)
          rwa [show start + (i + 1) = start + 1 + i by omega] at h')
        (by rwa [show start + (j + 1) = start + 1 + j by omega] at hok)
      simp [get_data_with_retryAux, he, hrec, List.replicate_succ]

/-- A key that is not among an association list's keys looks up to
`none`. -/
lemma lookup_eq_none_of_not_mem_keys {t : String} :
    ∀ {l : List (String × ℚ)}, t ∉ l.map Prod.fst → l.lookup t = none := by
  intro l
  induction l with
  | nil => intro _; rfl
  | cons p rest ih =>
    intro h
    obtain ⟨k, v⟩ := p
    simp only [List.map_cons, List.mem_cons] at h
    push_neg at h
    have hk : (t == k) = false := beq_eq_false_iff_ne.mpr h.1
    simp [List.lookup, hk, ih h.2]

/-- On a line with at least 12 tokens, `parse_current` succeeds and each
field is the decode of its positional token. -/
lemma parse_ok (s : String) (h : 12 ≤ (pySplit s).length) :
    parse_current s = .ok {
      time := (pySplit s).getD 0 ""
      date := (pySplit s).getD 1 ""
      wind_dir := compassGet ((pySplit s).getD 2 "")
      wind_speed := try_float (pyTake 2 ((pySplit s).getD 3 ""))
      temperature_aux := try_float (pyTake 3 ((pySplit s).getD 4 ""))
      temperature_in := try_float (pyTake 3 ((pySplit s).getD 5 ""))
      temperature_out := try_float (pyTake 3 ((pySplit s).getD 6 ""))
      humidity := try_float (pyTake 3 ((pySplit s).getD 7 ""))
      pressure := try_float (pyDropRight 1 ((pySplit s).getD 8 ""))
      rain_day := try_float (pyDropRight 2 ((pySplit s).getD 9 ""))
      rain_month := try_float (pyDropRight 2 ((pySplit s).getD 10 ""))
      rain_total := try_float (pyDropRight 2 ((pySplit s).getD 11 "")) } := by
  simp [parse_current, parseTokens, Nat.not_lt.mpr h]

/-- Two token lists agreeing up to index 12 agree at each earlier
position. -/
lemma getD_eq_of_take12 {l₁ l₂ : List String} (h : l₁.take 12 = l₂.take 12)
    {i : Nat} (hi : i < 12) : l₁.getD i "" = l₂.getD i "" := by
  have h' := congrArg (fun l => l.getD i "") h
  simpa [List.getD_eq_getElem?_getD, List.getElem?_take_of_lt hi] using h'

/-- The first two characters of a two-digit rendering followed by `MPH`
parse back to the rendered value. -/
lemma try_float_twoDigitMPH :
    ∀ n, n < 100 → try_float (pyTake 2 (twoDigitStr n ++ "MPH")) = some (n : ℚ) := by
  decide

/-- The sample current-conditions line from the source's comment block. -/
def sampleLine : String :=
  "5:15 07/24/90 SSE 04MPH 052F 069F 078F 099% 30.04R 00.19\"D 01.38\"M 11.78\"T"

/-- The sample line cut down to its first 10 tokens. -/
def shortLine : String :=
  "5:15 07/24/90 SSE 04MPH 052F 069F 078F 099% 30.04R 00.19\"D"

/-- The sample line with a one-digit wind-speed token `4MPH`. -/
def badWindLine : String :=
  "5:15 07/24/90 SSE 4MPH 052F 069F 078F 099% 30.04R 00.19\"D 01.38\"M 11.78\"T"

/-- The sample line with a 13th token appended. -/
def extraLine1 : String :=
  "5:15 07/24/90 SSE 04MPH 052F 069F 078F 099% 30.04R 00.19\"D 01.38\"M 11.78\"T AAA"

/-- The sample line with a different 13th token appended. -/
def extraLine2 : String :=
  "5:15 07/24/90 SSE 04MPH 052F 069F 078F 099% 30.04R 00.19\"D 01.38\"M 11.78\"T BBB"

/-! ### Claim theorems -/

/-- C1: the claim says that with `max_tries = N ≥ 1` and a transport that
fails on every attempt, `execute` makes exactly `N` channel calls and
`N - 1` backoff sleeps and then fails with `RetriesExceeded` carrying the
command and attempt count.  The code makes the `N` calls but sleeps after
every failed attempt — `N` sleeps of `retry_wait`, including one after the
final attempt — and then raises `AttributeError`, because line 238 reads
`self._max_tries` while `__init__` stores `self.max_tries`; the
`raise weewx.RetriesExceeded(msg)` on line 240 is dead code.  In
particular `max_tries = 1` gives one attempt, one sleep, and an
`AttributeError`. -/
theorem get_data_with_retry_all_fail_trace (outcome : Nat → Except ChannelError String)
    (N w : Nat) (hN : 1 ≤ N) (hfail : ∀ i, ∃ e, outcome i = .error e) :
    get_data_with_retry outcome N w =
      ⟨N, List.replicate N w, .error .attributeError⟩ := by
  unfold get_data_with_retry
  exact retryAux_all_fail outcome w hfail N 0

/-- Witness for C1's theorem: `max_tries = 1`, `retry_wait = 10`, a
transport that always raises `SerialException`: one call, one sleep,
`AttributeError`. -/
theorem get_data_with_retry_all_fail_trace_witness :
    1 ≤ 1 ∧ get_data_with_retry (fun _ => .error .serialException) 1 10 =
      ⟨1, [10], .error .attributeError⟩ := by
  refine ⟨Nat.le_refl 1, ?_⟩
  have h := get_data_with_retry_all_fail_trace (fun _ => .error .serialException) 1 10
    (Nat.le_refl 1) (fun _ => ⟨.serialException, rfl⟩)
  simpa using h

/-- C8: for `max_tries = N`, if attempt `k ≤ N` succeeds after `k - 1`
transport failures, the executor returns the successful buffer after
exactly `k` channel calls and exactly `k - 1` sleeps of `retry_wait`, with
no further attempts or sleeps after the success. -/
theorem get_data_with_retry_success_at_k (outcome : Nat → Except ChannelError String)
    (N k w : Nat) (buf : String) (hk : 1 ≤ k) (hkN : k ≤ N)
    (hfail : ∀ i, i < k - 1 → ∃ e, outcome i = .error e)
    (hok : outcome (k - 1) = .ok buf) :
    get_data_with_retry outcome N w =
      ⟨k, List.replicate (k - 1) w, .ok buf⟩ := by
  unfold get_data_with_retry
  have h := retryAux_first_success outcome w buf (k - 1) 0 N (by omega)
    (fun i hi => by simpa using hfail i hi) (by simpa using hok)
  rwa [show k - 1 + 1 = k by omega] at h

/-- Witness for C8's theorem: `max_tries = 3`, one `WeeWxIOError` and then
success on attempt 2: two calls, one sleep, the buffer returned. -/
theorem get_data_with_retry_success_at_k_witness :
    1 ≤ 2 ∧ 2 ≤ 3 ∧
      get_data_with_retry (fun i => if i = 0 then .error .weewxIOError else .ok "OK") 3 7 =
        ⟨2, [7], .ok "OK"⟩ := by
  refine ⟨by omega, by omega, ?_⟩
  have h := get_data_with_retry_success_at_k
    (fun i => if i = 0 then .error .weewxIOError else .ok "OK") 3 2 7 "OK"
    (by omega) (by omega)
    (fun i hi => by
      match i, hi with
      | 0, _ => exact ⟨.weewxIOError, rfl⟩)
    rfl
  simpa using h

/-- C2 counterexample: when the read window elapses with no data received,
`get_data` does not fail at all — `readline` hands back the empty buffer
and `get_data` strips and returns it —, so no `TimeoutError` (nor any
channel error) is raised. -/
theorem get_data_timeout_no_error :
    ¬ ∃ e, get_data (readlineOnTimeout "") = .error e := by
  rintro ⟨e, he⟩
  simp [get_data, readlineOnTimeout, pyStrip] at he

/-- C2 amended: if the read window elapses with no data received,
`get_data` reports a successful empty response (which the polling loop
later discards as falsy), not a `TimeoutError`. -/
theorem get_data_timeout_empty_success :
    get_data (readlineOnTimeout "") = .ok "" := rfl

/-- C3: a line whose whitespace tokenisation yields fewer than 12 tokens
makes `parse_current` fail with the malformed-response error, and no
partial reading is returned. -/
theorem parse_current_too_few_tokens (s : String)
    (h : (pySplit s).length < 12) :
    parse_current s = .error .malformedResponse := by
  simp [parse_current, parseTokens, h]

/-- Witness for C3's theorem: the 10-token prefix of the sample line. -/
theorem parse_current_too_few_tokens_witness :
    (pySplit shortLine).length < 12 ∧
      parse_current shortLine = .error .malformedResponse :=
  ⟨by decide, parse_current_too_few_tokens shortLine (by decide)⟩

/-- C4: on any line with at least 12 tokens the parse succeeds; every
field equals the decode of its own token, so a numeric token that (after
its unit stripping) fails to parse makes exactly that field absent while
all remaining fields are still parsed, and no exception propagates. -/
theorem parse_current_tolerant (s : String) (h : 12 ≤ (pySplit s).length) :
    ∃ r, parse_current s = .ok r
      ∧ (pyFloat (pyTake 2 ((pySplit s).getD 3 "")) = none → r.wind_speed = none)
      ∧ (pyFloat (pyTake 3 ((pySplit s).getD 4 "")) = none → r.temperature_aux = none)
      ∧ (pyFloat (pyTake 3 ((pySplit s).getD 5 "")) = none → r.temperature_in = none)
      ∧ (pyFloat (pyTake 3 ((pySplit s).getD 6 "")) = none → r.temperature_out = none)
      ∧ (pyFloat (pyTake 3 ((pySplit s).getD 7 "")) = none → r.humidity = none)
      ∧ (pyFloat (pyDropRight 1 ((pySplit s).getD 8 "")) = none → r.pressure = none)
      ∧ (pyFloat (pyDropRight 2 ((pySplit s).getD 9 "")) = none → r.rain_day = none)
      ∧ (pyFloat (pyDropRight 2 ((pySplit s).getD 10 "")) = none → r.rain_month = none)
      ∧ (pyFloat (pyDropRight 2 ((pySplit s).getD 11 "")) = none → r.rain_total = none)
      ∧ r.time = (pySplit s).getD 0 ""
      ∧ r.date = (pySplit s).getD 1 ""
      ∧ r.wind_dir = compassGet ((pySplit s).getD 2 "")
      ∧ r.wind_speed = try_float (pyTake 2 ((pySplit s).getD 3 ""))
      ∧ r.temperature_aux = try_float (pyTake 3 ((pySplit s).getD 4 ""))
      ∧ r.temperature_in = try_float (pyTake 3 ((pySplit s).getD 5 ""))
      ∧ r.temperature_out = try_float (pyTake 3 ((pySplit s).getD 6 ""))
      ∧ r.humidity = try_float (pyTake 3 ((pySplit s).getD 7 ""))
      ∧ r.pressure = try_float (pyDropRight 1 ((pySplit s).getD 8 ""))
      ∧ r.rain_day = try_float (pyDropRight 2 ((pySplit s).getD 9 ""))
      ∧ r.rain_month = try_float (pyDropRight 2 ((pySplit s).getD 10 ""))
      ∧ r.rain_total = try_float (pyDropRight 2 ((pySplit s).getD 11 "")) := by
  refine ⟨_, parse_ok s h,
    ?_, ?_, ?_, ?_, ?_, ?_, ?_, ?_, ?_,
    rfl, rfl, rfl, rfl, rfl, rfl, rfl, rfl, rfl, rfl, rfl, rfl⟩ <;>
  · intro hx
    simpa [try_float] using hx

/-- Witness for C4's theorem: the sample line with the malformed
wind-speed token `4MPH` — wind speed becomes absent, everything else is
still parsed. -/
theorem parse_current_tolerant_witness :
    12 ≤ (pySplit badWindLine).length ∧
      ∃ r, parse_current badWindLine = .ok r ∧ r.wind_speed = none ∧
        r.humidity = try_float (pyTake 3 ((pySplit badWindLine).getD 7 "")) := by
  refine ⟨by decide, ?_⟩
  obtain ⟨r, hr, himp, rest⟩ := parse_current_tolerant badWindLine (by decide)
  exact ⟨r, hr, himp (by decide), by tauto⟩

/-- C5: the exact sample line parses to the documented reading:
time `5:15`, date `07/24/90`, wind 157.5° at 4 mph, temperatures 52/69/78,
humidity 99, pressure 30.04, rain 0.19/1.38/11.78. -/
theorem parse_current_sample_line :
    parse_current sampleLine = .ok {
      time := "5:15", date := "07/24/90",
      wind_dir := some (157.5 : ℚ), wind_speed := some (4 : ℚ),
      temperature_aux := some (52 : ℚ), temperature_in := some (69 : ℚ),
      temperature_out := some (78 : ℚ), humidity := some (99 : ℚ),
      pressure := some (30.04 : ℚ), rain_day := some (0.19 : ℚ),
      rain_month := some (1.38 : ℚ), rain_total := some (11.78 : ℚ) } := by
  rw [show (157.5 : ℚ) = mkRat 315 2 by
        rw [Rat.mkRat_eq_divInt, Rat.divInt_eq_div]; norm_num,
      show (30.04 : ℚ) = mkRat 3004 100 by
        rw [Rat.mkRat_eq_divInt, Rat.divInt_eq_div]; norm_num,
      show (0.19 : ℚ) = mkRat 19 100 by
        rw [Rat.mkRat_eq_divInt, Rat.divInt_eq_div]; norm_num,
      show (1.38 : ℚ) = mkRat 138 100 by
        rw [Rat.mkRat_eq_divInt, Rat.divInt_eq_div]; norm_num,
      show (11.78 : ℚ) = mkRat 1178 100 by
        rw [Rat.mkRat_eq_divInt, Rat.divInt_eq_div]; norm_num]
  decide

/-- C6: every token in the 16-point compass table decodes to exactly the
documented bearing — the points are spaced 22.5° apart, `N` ↦ 0 and
`SSE` ↦ 157.5 — while any token outside the table yields an absent wind
direction and the parse still succeeds. -/
theorem compass_points_correct :
    (compassGet "N" = some 0 ∧ compassGet "SSE" = some (157.5 : ℚ))
    ∧ (∀ i, i < 16 → compassGet (compassNames.getD i "") = some (mkRat (45 * i) 2))
    ∧ (∀ t, t ∉ compassNames → compassGet t = none)
    ∧ (∀ s, 12 ≤ (pySplit s).length →
        ∃ r, parse_current s = .ok r ∧ r.wind_dir = compassGet ((pySplit s).getD 2 "")) := by
  refine ⟨⟨by decide, ?_⟩, by decide, ?_, ?_⟩
  · rw [show (157.5 : ℚ) = mkRat 315 2 by
        rw [Rat.mkRat_eq_divInt, Rat.divInt_eq_div]; norm_num]
    decide
  · exact fun t ht => lookup_eq_none_of_not_mem_keys ht
  · exact fun s hs => ⟨_, parse_ok s hs, rfl⟩

/-- Witness for C6's theorem: point 7 of the table is `SSE` ↦ 315/2,
`XXX` is not a compass point, and on the sample line the wind direction is
the table lookup of token 2. -/
theorem compass_points_correct_witness :
    compassGet (compassNames.getD 7 "") = some (mkRat (45 * 7) 2)
    ∧ compassGet "XXX" = none
    ∧ (∃ r, parse_current sampleLine = .ok r ∧
        r.wind_dir = compassGet ((pySplit sampleLine).getD 2 "")) :=
  ⟨compass_points_correct.2.1 7 (by decide),
   compass_points_correct.2.2.1 "XXX" (by decide),
   compass_points_correct.2.2.2 sampleLine (by decide)⟩

/-- C7 counterexample: token 3 of this line is `4MPH`, of the form
`<digits>MPH`, yet the parsed wind speed is absent rather than 4.0 — the
code slices the first two characters `"4M"` instead of stripping the `MPH`
suffix. -/
theorem wind_speed_not_suffix_stripped :
    parse_current badWindLine = .ok {
      time := "5:15", date := "07/24/90",
      wind_dir := some (mkRat 315 2), wind_speed := none,
      temperature_aux := some 52, temperature_in := some 69,
      temperature_out := some 78, humidity := some 99,
      pressure := some (mkRat 3004 100), rain_day := some (mkRat 19 100),
      rain_month := some (mkRat 138 100), rain_total := some (mkRat 1178 100) }
    ∧ (none : Option ℚ) ≠ some 4 := by
  exact ⟨by decide, by decide⟩

/-- C7 amended: `parse_current` computes the wind speed from the first two
characters of token 3 (the source's `parts[3][:2]`), so it equals the
numeric value of the token's digits exactly when the token is two digits
followed by `MPH`. -/
theorem wind_speed_first_two_chars (s : String) (n : Nat) (hn : n < 100)
    (hlen : 12 ≤ (pySplit s).length)
    (htok : (pySplit s).getD 3 "" = twoDigitStr n ++ "MPH") :
    ∃ r, parse_current s = .ok r
      ∧ r.wind_speed = try_float (pyTake 2 ((pySplit s).getD 3 ""))
      ∧ r.wind_speed = some (n : ℚ) := by
  refine ⟨_, parse_ok s hlen, rfl, ?_⟩
  show try_float (pyTake 2 ((pySplit s).getD 3 "")) = some (n : ℚ)
  rw [htok]
  exact try_float_twoDigitMPH n hn

/-- Witness for C7's amended theorem: the sample line, whose token 3 is
`04MPH`, yields wind speed 4. -/
theorem wind_speed_first_two_chars_witness :
    4 < 100 ∧ 12 ≤ (pySplit sampleLine).length
    ∧ (pySplit sampleLine).getD 3 "" = twoDigitStr 4 ++ "MPH"
    ∧ ∃ r, parse_current sampleLine = .ok r
        ∧ r.wind_speed = try_float (pyTake 2 ((pySplit sampleLine).getD 3 ""))
        ∧ r.wind_speed = some ((4 : Nat) : ℚ) :=
  ⟨by decide, by decide, by decide,
   wind_speed_first_two_chars sampleLine 4 (by decide) (by decide) (by decide)⟩

/-- C9 counterexample: `TWIStation.__init__` itself defaults `max_tries`
to 5, so a station constructed directly with no overrides — as the
module's `__main__` harness does with `TWIStation(options.port)` — does
not have `max_tries = 10`. -/
theorem station_direct_default_counterexample :
    (mkTWIStation DEFAULT_PORT).max_tries = 5
    ∧ (mkTWIStation DEFAULT_PORT).max_tries ≠ 10 := by
  exact ⟨rfl, by decide⟩

/-- C9 amended: a station built by the driver from a configuration with no
explicit overrides has baud rate 19200, read timeout 3, `max_tries` 10 and
`retry_wait` 10 (the 10s are the driver-level defaults;
`TWIStation.__init__`'s own `max_tries` default is 5), and `open`/`close`
never change these configuration fields. -/
theorem station_config_driver_defaults :
    TWIDriver.mkStation ⟨none, none, none, none, none⟩ =
      { port := DEFAULT_PORT, baudrate := 19200, timeout := 3,
        max_tries := 10, retry_wait := 10, serial_port := none }
    ∧ (∀ st h, (stationOpen st h).port = st.port
        ∧ (stationOpen st h).baudrate = st.baudrate
        ∧ (stationOpen st h).timeout = st.timeout
        ∧ (stationOpen st h).max_tries = st.max_tries
        ∧ (stationOpen st h).retry_wait = st.retry_wait)
    ∧ (∀ st, (stationClose st).port = st.port
        ∧ (stationClose st).baudrate = st.baudrate
        ∧ (stationClose st).timeout = st.timeout
        ∧ (stationClose st).max_tries = st.max_tries
        ∧ (stationClose st).retry_wait = st.retry_wait) := by
  refine ⟨rfl, fun st h => ⟨rfl, rfl, rfl, rfl, rfl⟩, fun st => ?_⟩
  obtain ⟨p, b, t, m, r, sp⟩ := st
  cases sp <;> exact ⟨rfl, rfl, rfl, rfl, rfl⟩

/-- C10: a line with more than 12 tokens parses successfully, and the
result depends only on the first 12 tokens: any line agreeing on those
parses to a field-for-field equal reading. -/
theorem parse_current_ignores_extra_tokens (s₁ s₂ : String)
    (h1 : 12 < (pySplit s₁).length)
    (h2 : (pySplit s₁).take 12 = (pySplit s₂).take 12) :
    (∃ r, parse_current s₁ = .ok r) ∧ parse_current s₁ = parse_current s₂ := by
  have hl1 : 12 ≤ (pySplit s₁).length := le_of_lt h1
  have hl2 : 12 ≤ (pySplit s₂).length := by
    have hlen := congrArg List.length h2
    simp only [List.length_take] at hlen
    omega
  refine ⟨⟨_, parse_ok s₁ hl1⟩, ?_⟩
  rw [parse_ok s₁ hl1, parse_ok s₂ hl2]
  have e : ∀ i, i < 12 → (pySplit s₁).getD i "" = (pySplit s₂).getD i "" :=
    fun i hi => getD_eq_of_take12 h2 hi
  rw [e 0 (by omega), e 1 (by omega), e 2 (by omega), e 3 (by omega),
      e 4 (by omega), e 5 (by omega), e 6 (by omega), e 7 (by omega),
      e 8 (by omega), e 9 (by omega), e 10 (by omega), e 11 (by omega)]

/-- Witness for C10's theorem: two 13-token lines differing only in the
13th token parse identically. -/
theorem parse_current_ignores_extra_tokens_witness :
    12 < (pySplit extraLine1).length
    ∧ (pySplit extraLine1).take 12 = (pySplit extraLine2).take 12
    ∧ ((∃ r, parse_current extraLine1 = .ok r)
        ∧ parse_current extraLine1 = parse_current extraLine2) :=
  ⟨by decide, by decide,
   parse_current_ignores_extra_tokens extraLine1 extraLine2 (by decide) (by decide)⟩

end TWI
